import Mathlib

/-!
Verification of the authentication/authorization subsystem of the Student
Portal backend (src/main.py).  The embedding models the source functions
`create_token`, `get_current_user`, `require_role`, `register`, `login`,
`create_course` and `create_assignment` as pure Lean functions, with the
MongoDB `user` and `course` collections modelled as lists of records and
the wall clock passed explicitly as a `Nat` (seconds).

ObjectIds are modelled as `Nat`; the Python `str(ObjectId)` / `ObjectId(str)`
round trip is the identity on valid ids, so the JWT `sub` claim carries the
`Nat` directly.  The `db is None` guard (HTTP 500 when the database is not
configured) is omitted: the store is modelled as always configured, which is
the precondition of every claim considered here.
-/

deriving instance DecidableEq for Except

namespace Portal

/-- `Role = Literal["student", "teacher", "admin"]` from src/main.py line 53. -/
inductive Role where
  | student
  | teacher
  | admin
deriving DecidableEq, Repr

/-- One document of the MongoDB `user` collection, per `schemas.py` `User`
plus the generated `_id`.  Timestamps and optional profile fields are
omitted: no function modelled here reads them. -/
structure Account where
  id : Nat
  name : String
  email : String
  password_hash : String
  role : Role
  approved : Bool
deriving DecidableEq, Repr

/-- The `user` collection together with the id the store would assign to the
next inserted document. -/
structure Store where
  users : List Account
  nextId : Nat
deriving DecidableEq, Repr

/-- `db["user"].find_one({"email": email})`: first document with that email. -/
def findByEmail (store : Store) (email : String) : Option Account :=
  store.users.find? (fun a => a.email == email)

/-- `db["user"].find_one({"_id": oid(id)})`: first document with that id. -/
def findById (store : Store) (id : Nat) : Option Account :=
  store.users.find? (fun a => a.id == id)

/-- `fastapi.HTTPException(status_code, detail)` as raised by the handlers. -/
structure HTTPError where
  status : Nat
  detail : String
deriving DecidableEq, Repr

def missingCredentialErr : HTTPError := ⟨401, "Missing Authorization header"⟩
def expiredCredentialErr : HTTPError := ⟨401, "Token expired"⟩
def invalidCredentialErr : HTTPError := ⟨401, "Invalid token"⟩
def unauthorizedErr : HTTPError := ⟨401, "Invalid credentials"⟩
def forbiddenErr : HTTPError := ⟨403, "Forbidden"⟩
def pendingApprovalErr : HTTPError := ⟨403, "Account pending approval"⟩
def notYourCourseErr : HTTPError := ⟨403, "Not your course"⟩
def conflictErr : HTTPError := ⟨400, "Email already registered"⟩
def invalidRequestErr : HTTPError := ⟨400, "Cannot self-register as admin"⟩
def courseNotFoundErr : HTTPError := ⟨404, "Course not found"⟩

/-- `JWT_EXP_MIN = int(os.getenv("JWT_EXP_MIN", "60"))`, modelled at its
default of 60 minutes. -/
def JWT_EXP_MIN : Nat := 60

/-- Modelled from the spec: the token format produced by the external PyJWT
library (`jwt.encode`), which is not part of src/ — a compact signed structure
carrying `{subject, role, expiry}` plus the symmetric key it was signed
with.  `exp` is an absolute timestamp in seconds. -/
structure Token where
  sub : Nat
  role : Role
  exp : Nat
  sig : String
deriving DecidableEq, Repr

inductive JwtError where
  | expiredSignature
  | invalidSignature
deriving DecidableEq, Repr

structure JwtPayload where
  sub : Nat
  role : Role
  exp : Nat
deriving DecidableEq, Repr

/-- Modelled from the spec: `jwt.encode(payload, key, algorithm="HS256")` of
the external PyJWT library signs the payload with the shared secret. -/
def jwtEncode (payload : JwtPayload) (key : String) : Token :=
  { sub := payload.sub, role := payload.role, exp := payload.exp, sig := key }

/-- Modelled from the spec: `jwt.decode(token, key, algorithms=["HS256"])` of
the external PyJWT library checks the signature against the shared secret
(mis-signed ⇒ `InvalidCredential`-class failure) and then the `exp` claim
against the current time (elapsed ⇒ `ExpiredSignatureError`); a token expiring
exactly at the current instant is treated as expired. -/
def jwtDecode (t : Token) (key : String) (now : Nat) : Except JwtError JwtPayload :=
  if t.sig ≠ key then .error .invalidSignature
  else if t.exp ≤ now then .error .expiredSignature
  else .ok { sub := t.sub, role := t.role, exp := t.exp }

/-- `create_token(user)` (src/main.py lines 139-145): payload
`{"sub": str(user["_id"]), "role": user["role"], "exp": now + JWT_EXP_MIN minutes}`
signed with the secret. -/
def create_token (secret : String) (now : Nat) (user : Account) : Token :=
  jwtEncode { sub := user.id, role := user.role, exp := now + JWT_EXP_MIN * 60 } secret

/-- A credential string presented in the Authorization header: either a
well-formed JWT or a string the JWT decoder cannot parse (which PyJWT rejects
with `DecodeError`, caught by the generic handler of `get_current_user`). -/
inductive Credential where
  | tok (t : Token)
  | malformed (s : String)
deriving DecidableEq, Repr

/-- The raw `Authorization` header, partitioned by what
`authorization.split(" ")` does to it: `missing` (header absent or empty —
both falsy in Python), `badFormat` (the split does not yield exactly two
parts, so the unpacking raises `ValueError`), or a scheme word plus a
credential word. -/
inductive Authorization where
  | missing
  | badFormat (s : String)
  | schemeCred (scheme : String) (cred : Credential)
deriving DecidableEq, Repr

/-- Python `str.lower()` as used on the scheme word, mapped over the
characters (extensionally `String.toLower`, defined over the character list
so that the kernel can evaluate it). -/
def lower (s : String) : String := ⟨s.data.map Char.toLower⟩

/-- `get_current_user(authorization)` (src/main.py lines 148-168).  Every
exception inside the `try` other than `jwt.ExpiredSignatureError` — bad
unpacking, wrong scheme, undecodable token, unknown subject — is caught by the
generic handler and surfaces as 401 "Invalid token"; an expired signature
surfaces as 401 "Token expired".  The `if not user_id` guard cannot fire in
the model because the `sub` claim of a modelled token always carries an id. -/
def get_current_user (secret : String) (now : Nat) (store : Store)
    (authorization : Authorization) : Except HTTPError Account :=
  match authorization with
  | .missing => .error missingCredentialErr
  | .badFormat _ => .error invalidCredentialErr
  | .schemeCred scheme cred =>
    if lower scheme ≠ "bearer" then .error invalidCredentialErr
    else
      match cred with
      | .malformed _ => .error invalidCredentialErr
      | .tok t =>
        match jwtDecode t secret now with
        | .error .expiredSignature => .error expiredCredentialErr
        | .error .invalidSignature => .error invalidCredentialErr
        | .ok payload =>
          match findById store payload.sub with
          | none => .error invalidCredentialErr
          | some user => .ok user

/-- `require_role(user, roles)` (src/main.py lines 171-173): 403 "Forbidden"
unless `user["role"]` is in `roles`. -/
def require_role (user : Account) (roles : List Role) : Except HTTPError Unit :=
  if user.role ∈ roles then .ok () else .error forbiddenErr

/-- Splits a character list at its first `'$'`: the part before it and the
part after it, or `none` when no `'$'` occurs. -/
def splitAtDollar : List Char → Option (List Char × List Char)
  | [] => none
  | c :: rest =>
    if c = '$' then some ([], rest)
    else
      match splitAtDollar rest with
      | some (s, p) => some (c :: s, p)
      | none => none

/-- Decimal digit characters to the number they denote; `none` when empty or
holding a non-digit. -/
def charsToNat? (cs : List Char) : Option Nat :=
  if cs.isEmpty then none
  else if cs.all Char.isDigit then
    some (cs.foldl (fun n c => n * 10 + (c.toNat - 48)) 0)
  else none

/-- Modelled from the spec: the Password Hasher is the external passlib
`bcrypt` library, not part of src/.  A well-formed hash is
`"$2b$" ++ salt ++ "$" ++ payload` with a non-empty decimal salt; it parses
into the salt and the payload standing for the hashed secret.  Any string
that does not parse is malformed. -/
def bcryptParse (h : String) : Option (Nat × String) :=
  match h.data with
  | '$' :: '2' :: 'b' :: '$' :: rest =>
    match splitAtDollar rest with
    | some (saltChars, payload) =>
      match charsToNat? saltChars with
      | some salt => some (salt, String.mk payload)
      | none => none
    | none => none
  | _ => none

/-- Modelled from the spec: `bcrypt.hash(plaintext)` — one-way salted hashing;
the non-deterministic salt is passed explicitly. -/
def bcryptHash (plaintext : String) (salt : Nat) : String :=
  "$2b$" ++ toString salt ++ "$" ++ plaintext

/-- Modelled from the spec: `bcrypt.verify(plaintext, opaque_hash) -> bool` —
constant-behavior comparison that fails closed (returns `false`) on any
malformed hash rather than raising. -/
def bcryptVerify (plaintext : String) (h : String) : Bool :=
  match bcryptParse h with
  | some (_, payload) => payload == plaintext
  | none => false

/-- `RegisterRequest` (src/main.py lines 56-60). -/
structure RegisterRequest where
  name : String
  email : String
  password : String
  role : Role
deriving DecidableEq, Repr

/-- `LoginRequest` (src/main.py lines 63-65). -/
structure LoginRequest where
  email : String
  password : String
deriving DecidableEq, Repr

/-- `register(payload)` (src/main.py lines 236-258).  Returns the store after
the request together with the response: a raise before the insert leaves the
store unchanged.  Order of checks as in the source: the admin-role check comes
before the duplicate-email lookup.  `approved = (payload.role == "student")`
(students auto-approved; teachers need admin approval). -/
def register (store : Store) (payload : RegisterRequest) (secret : String)
    (now salt : Nat) : Store × Except HTTPError Token :=
  if payload.role = .admin then (store, .error invalidRequestErr)
  else
    match findByEmail store payload.email with
    | some _ => (store, .error conflictErr)
    | none =>
      let approved := payload.role = .student
      let user : Account :=
        { id := store.nextId, name := payload.name, email := payload.email,
          password_hash := bcryptHash payload.password salt,
          role := payload.role, approved := approved }
      ({ users := store.users ++ [user], nextId := store.nextId + 1 },
       .ok (create_token secret now user))

/-- `login(payload)` (src/main.py lines 261-271).  `not user or not
bcrypt.verify(...)` collapses the unknown-email and wrong-password cases into
the same 401 "Invalid credentials"; then a non-admin unapproved account gets
403 "Account pending approval"; otherwise one token is issued. -/
def login (store : Store) (payload : LoginRequest) (secret : String)
    (now : Nat) : Except HTTPError Token :=
  match findByEmail store payload.email with
  | none => .error unauthorizedErr
  | some user =>
    if ¬ bcryptVerify payload.password user.password_hash then .error unauthorizedErr
    else if user.role ≠ .admin ∧ user.approved = false then .error pendingApprovalErr
    else .ok (create_token secret now user)

/-- One document of the `course` collection (fields read by the modelled
handlers).  `teacher_id` is stored as `str(ObjectId)` in the source, modelled
as the `Nat` id. -/
structure Course where
  id : Nat
  title : String
  description : Option String
  subject : Option String
  teacher_id : Nat
deriving DecidableEq, Repr

structure CourseStore where
  courses : List Course
  nextId : Nat
deriving DecidableEq, Repr

def findCourseById (cs : CourseStore) (id : Nat) : Option Course :=
  cs.courses.find? (fun c => c.id == id)

/-- `CourseCreate` (src/main.py lines 80-83). -/
structure CourseCreate where
  title : String
  description : Option String
  subject : Option String
deriving DecidableEq, Repr

/-- `create_course(body, current)` (src/main.py lines 295-310) without its
authentication dependency (the resolved account is the argument).  The source
sets `teacher_id` to `str(current["_id"])` when the actor is a teacher and
otherwise to `body.__dict__.get("teacher_id") or str(current["_id"])`;
`CourseCreate` has no `teacher_id` field, so both branches yield the id of
the actor. -/
def create_course (cs : CourseStore) (body : CourseCreate) (current : Account) :
    CourseStore × Except HTTPError Course :=
  match require_role current [.teacher, .admin] with
  | .error e => (cs, .error e)
  | .ok _ =>
    let doc : Course :=
      { id := cs.nextId, title := body.title, description := body.description,
        subject := body.subject, teacher_id := current.id }
    ({ courses := cs.courses ++ [doc], nextId := cs.nextId + 1 }, .ok doc)

/-- `AssignmentCreate` (src/main.py lines 86-90); `due_date` omitted (never
read by a modelled check). -/
structure AssignmentCreate where
  course_id : Nat
  title : String
  description : Option String
deriving DecidableEq, Repr

/-- One document of the `assignment` collection. -/
structure Assignment where
  id : Nat
  course_id : Nat
  title : String
  description : Option String
deriving DecidableEq, Repr

structure AssignmentStore where
  assignments : List Assignment
  nextId : Nat
deriving DecidableEq, Repr

/-- `create_assignment(body, current)` (src/main.py lines 325-345) without its
authentication dependency: role gate, course lookup (404 when absent), then
the ownership check — a teacher acting on a course whose `teacher_id` differs
from the id of the actor gets 403 "Not your course"; an admin skips it. -/
def create_assignment (cs : CourseStore) (asg : AssignmentStore)
    (body : AssignmentCreate) (current : Account) :
    AssignmentStore × Except HTTPError Assignment :=
  match require_role current [.teacher, .admin] with
  | .error e => (asg, .error e)
  | .ok _ =>
    match findCourseById cs body.course_id with
    | none => (asg, .error courseNotFoundErr)
    | some course =>
      if current.role = .teacher ∧ course.teacher_id ≠ current.id then
        (asg, .error notYourCourseErr)
      else
        let doc : Assignment :=
          { id := asg.nextId, course_id := body.course_id,
            title := body.title, description := body.description }
        ({ assignments := asg.assignments ++ [doc], nextId := asg.nextId + 1 },
         .ok doc)

/-! Concrete fixtures used by the witness theorems: an unapproved teacher, an
approved student, the seeded admin, an account whose `password_hash` is the
empty string (as substituted by `user.get("password_hash", "")`), and a course
owned by teacher id 99. -/

def annTeacher : Account := ⟨1, "Ann", "ann@x.com", bcryptHash "pw" 5, .teacher, false⟩
def stuStudent : Account := ⟨3, "Stu", "stu@x.com", bcryptHash "pw" 5, .student, true⟩
def admAccount : Account := ⟨4, "Adm", "adm@x.com", bcryptHash "pw" 5, .admin, true⟩
def sampleStore : Store := ⟨[annTeacher, stuStudent, admAccount], 5⟩
def brokenAccount : Account := ⟨6, "Bro", "bro@x.com", "", .student, true⟩
def brokenStore : Store := ⟨[brokenAccount], 7⟩
def sampleCourse : Course := ⟨10, "Algebra", none, none, 99⟩
def sampleCourses : CourseStore := ⟨[sampleCourse], 11⟩
def emptyAssignments : AssignmentStore := ⟨[], 0⟩
def sampleAssignmentBody : AssignmentCreate := ⟨10, "HW1", none⟩
def sampleCourseBody : CourseCreate := ⟨"Geometry", none, none⟩

/-- Helper: whatever `List.find?` returns satisfies the predicate. -/
theorem find?_sat {A : Type} (p : A → Bool) :
    ∀ (l : List A) (a : A), l.find? p = some a → p a = true := by
  intro l
  induction l with
  | nil => intro a h; simp [List.find?] at h
  | cons x xs ih =>
    intro a h
    by_cases hp : p x = true
    · rw [List.find?, hp] at h
      cases h
      exact hp
    · rw [List.find?, Bool.of_not_eq_true hp] at h
      exact ih a h

/-- Helper: `findById` only returns an account carrying the requested id. -/
theorem findById_id (store : Store) (id : Nat) (acct : Account)
    (h : findById store id = some acct) : acct.id = id := by
  have h2 : (fun a => a.id == id) acct = true := find?_sat _ store.users acct h
  exact beq_iff_eq.mp h2

/-- Helper: a bearer token minted by `create_token` with the secret of the
verifier decodes successfully while unexpired, and verification then resolves
the subject id in the store. -/
theorem get_current_user_bearer_ok (secret : String) (now nowV : Nat)
    (store : Store) (u acct : Account)
    (hfind : findById store u.id = some acct)
    (hexp : nowV < now + JWT_EXP_MIN * 60) :
    get_current_user secret nowV store
      (.schemeCred "Bearer" (.tok (create_token secret now u))) = .ok acct := by
  simp only [get_current_user]
  rw [if_neg (by decide)]
  unfold jwtDecode create_token jwtEncode
  simp only
  rw [if_neg (by simp), if_neg (Nat.not_le.mpr hexp)]
  simp only [hfind]

/-- Helper: a bearer token minted by `create_token` with the secret of the
verifier is rejected as expired once its expiry timestamp is reached. -/
theorem get_current_user_bearer_expired (secret : String) (now nowV : Nat)
    (store : Store) (u : Account)
    (hexp : now + JWT_EXP_MIN * 60 ≤ nowV) :
    get_current_user secret nowV store
      (.schemeCred "Bearer" (.tok (create_token secret now u)))
      = .error expiredCredentialErr := by
  simp only [get_current_user]
  rw [if_neg (by decide)]
  unfold jwtDecode create_token jwtEncode
  simp only
  rw [if_neg (by simp), if_pos hexp]

/-- C1: issuing a token for an account id and verifying it while the account
exists and the TTL has not elapsed yields an account whose id equals the
issued id. -/
theorem issue_verify_roundtrip (secret : String) (now nowV : Nat)
    (store : Store) (u acct : Account)
    (hfind : findById store u.id = some acct)
    (hexp : nowV < now + JWT_EXP_MIN * 60) :
    get_current_user secret nowV store
      (.schemeCred "Bearer" (.tok (create_token secret now u))) = .ok acct
    ∧ acct.id = u.id :=
  ⟨get_current_user_bearer_ok secret now nowV store u acct hfind hexp,
   findById_id store u.id acct hfind⟩

/-- C2: when the email resolves and the password verifies, login is gated by
approval — a non-admin unapproved account gets 403 "Account pending approval"
(Forbidden), and otherwise exactly the one freshly issued token is returned. -/
theorem login_approval_gate (store : Store) (payload : LoginRequest)
    (secret : String) (now : Nat) (u : Account)
    (hfind : findByEmail store payload.email = some u)
    (hverify : bcryptVerify payload.password u.password_hash = true) :
    (u.role ≠ .admin ∧ u.approved = false →
        login store payload secret now = .error pendingApprovalErr)
    ∧ (¬ (u.role ≠ .admin ∧ u.approved = false) →
        login store payload secret now = .ok (create_token secret now u)) := by
  constructor
  · intro hgate
    simp only [login, hfind]
    rw [if_neg (by simp [hverify]), if_pos hgate]
  · intro hgate
    simp only [login, hfind]
    rw [if_neg (by simp [hverify]), if_neg hgate]

/-- C3: registration dispatches on the requested role — admin is rejected with
400 "Cannot self-register as admin" before anything else, for any input, and
the store is untouched; a student registration (fresh email) inserts exactly
one account with `approved = true` and returns its token; a teacher
registration (fresh email) inserts exactly one account with
`approved = false` and returns its token. -/
theorem register_role_dispatch (store : Store) (secret : String)
    (now salt : Nat) (name email password : String) :
    register store ⟨name, email, password, .admin⟩ secret now salt
      = (store, .error invalidRequestErr)
    ∧ (findByEmail store email = none →
        ∃ a, register store ⟨name, email, password, .student⟩ secret now salt
            = ({ users := store.users ++ [a], nextId := store.nextId + 1 },
               .ok (create_token secret now a))
          ∧ a.approved = true)
    ∧ (findByEmail store email = none →
        ∃ a, register store ⟨name, email, password, .teacher⟩ secret now salt
            = ({ users := store.users ++ [a], nextId := store.nextId + 1 },
               .ok (create_token secret now a))
          ∧ a.approved = false) := by
  refine ⟨?_, ?_, ?_⟩
  · simp only [register]
    rw [if_pos trivial]
  · intro hfresh
    refine ⟨{ id := store.nextId, name := name, email := email,
              password_hash := bcryptHash password salt,
              role := .student, approved := true }, ?_, rfl⟩
    simp only [register]
    rw [if_neg (by decide)]
    simp only [hfresh]
    rfl
  · intro hfresh
    refine ⟨{ id := store.nextId, name := name, email := email,
              password_hash := bcryptHash password salt,
              role := .teacher, approved := false }, ?_, rfl⟩
    simp only [register]
    rw [if_neg (by decide)]
    simp only [hfresh]
    rfl

/-- C4: an unknown email and a known email with a failing password produce
the very same 401 "Invalid credentials" error, for any passwords. -/
theorem login_enumeration_safe (store : Store) (secret : String) (now : Nat)
    (e1 e2 pw1 pw2 : String) (u : Account)
    (h1 : findByEmail store e1 = none)
    (h2 : findByEmail store e2 = some u)
    (h3 : bcryptVerify pw2 u.password_hash = false) :
    login store ⟨e1, pw1⟩ secret now = .error unauthorizedErr
    ∧ login store ⟨e2, pw2⟩ secret now = .error unauthorizedErr := by
  constructor
  · simp only [login, h1]
  · simp only [login, h2]
    rw [if_pos (by simp [h3])]

/-- C5: neither authentication nor the role gate consults `approved` — an
account with `approved = false` holding a valid unexpired token is resolved
by `get_current_user` (the `happ` hypothesis is deliberately unused by the
proof: that is the content of the claim), `require_role` passes whenever the
live role is in the allowed set, and an unapproved teacher can run the
role-gated `create_course`; approval is enforced only inside `login`. -/
theorem approval_not_consulted_by_auth (secret : String) (now nowV : Nat)
    (store : Store) (u acct : Account) (roles : List Role)
    (cs : CourseStore) (body : CourseCreate)
    (hfind : findById store u.id = some acct)
    (happ : acct.approved = false)
    (hexp : nowV < now + JWT_EXP_MIN * 60) :
    get_current_user secret nowV store
      (.schemeCred "Bearer" (.tok (create_token secret now u))) = .ok acct
    ∧ (acct.role ∈ roles → require_role acct roles = .ok ())
    ∧ (acct.role = .teacher → ∃ c, (create_course cs body acct).2 = .ok c) := by
  refine ⟨get_current_user_bearer_ok secret now nowV store u acct hfind hexp, ?_, ?_⟩
  · intro hmem
    simp only [require_role]
    rw [if_pos hmem]
  · intro hrole
    refine ⟨{ id := cs.nextId, title := body.title, description := body.description,
              subject := body.subject, teacher_id := acct.id }, ?_⟩
    simp only [create_course, require_role]
    rw [if_pos (by rw [hrole]; exact List.mem_cons_self _ _)]

/-- C6: a registration whose email is already present (and whose role is not
admin, which is rejected earlier) fails with 400 "Email already registered"
and leaves the store exactly as it was: nothing inserted, nothing mutated,
no token. -/
theorem register_duplicate_email (store : Store) (payload : RegisterRequest)
    (u : Account) (secret : String) (now salt : Nat)
    (hrole : payload.role ≠ .admin)
    (hdup : findByEmail store payload.email = some u) :
    register store payload secret now salt = (store, .error conflictErr) := by
  simp only [register]
  rw [if_neg hrole]
  simp only [hdup]

/-- C7: `require_role` denies with 403 "Forbidden" exactly when the role of
the account is outside the allowed set; in `create_assignment` a teacher
acting on a course owned by a different teacher id is denied with 403 "Not
your course", while an admin proceeds regardless of the ownership
comparison. -/
theorem access_gate_role_and_ownership (u : Account) (roles : List Role)
    (cs : CourseStore) (asg : AssignmentStore) (body : AssignmentCreate)
    (tch adm : Account) (course : Course)
    (hcourse : findCourseById cs body.course_id = some course)
    (hteacher : tch.role = .teacher) (hadmin : adm.role = .admin) :
    (require_role u roles = .error forbiddenErr ↔ u.role ∉ roles)
    ∧ (course.teacher_id ≠ tch.id →
        create_assignment cs asg body tch = (asg, .error notYourCourseErr))
    ∧ (∃ doc asg2, create_assignment cs asg body adm = (asg2, .ok doc)) := by
  refine ⟨?_, ?_, ?_⟩
  · constructor
    · intro h hmem
      rw [require_role, if_pos hmem] at h
      exact Except.noConfusion h
    · intro hmem
      rw [require_role, if_neg hmem]
  · intro hown
    simp only [create_assignment, require_role]
    rw [if_pos (by rw [hteacher]; exact List.mem_cons_self _ _)]
    simp only [hcourse]
    rw [if_pos ⟨hteacher, hown⟩]
  · refine ⟨{ id := asg.nextId, course_id := body.course_id,
              title := body.title, description := body.description },
            { assignments := asg.assignments ++
                [{ id := asg.nextId, course_id := body.course_id,
                   title := body.title, description := body.description }],
              nextId := asg.nextId + 1 }, ?_⟩
    simp only [create_assignment, require_role]
    rw [if_pos (by rw [hadmin]; exact List.mem_cons_of_mem _ (List.mem_cons_self _ _))]
    simp only [hcourse]
    rw [if_neg (by rw [hadmin]; simp)]

/-- C8: a token issued by `create_token` whose expiry timestamp has elapsed is
rejected with 401 "Token expired" and with no other error; that outcome is
distinct from the missing-credential and invalid-credential errors. -/
theorem expired_token_rejected (secret : String) (now nowV : Nat)
    (store : Store) (u : Account)
    (hexp : now + JWT_EXP_MIN * 60 < nowV) :
    get_current_user secret nowV store
      (.schemeCred "Bearer" (.tok (create_token secret now u)))
      = .error expiredCredentialErr
    ∧ expiredCredentialErr ≠ invalidCredentialErr
    ∧ expiredCredentialErr ≠ missingCredentialErr :=
  ⟨get_current_user_bearer_expired secret now nowV store u (Nat.le_of_lt hexp),
   by decide, by decide⟩

/-- C9: `bcrypt.verify` fails closed — on any hash that does not parse
(including the empty string substituted for a missing `password_hash`) it
returns `false` for every plaintext, so a login against such an account is a
401 "Invalid credentials", not a crash. -/
theorem verify_fails_closed (p h : String) (store : Store)
    (payload : LoginRequest) (u : Account) (secret : String) (now : Nat)
    (hmal : bcryptParse h = none)
    (hfind : findByEmail store payload.email = some u)
    (hmal2 : bcryptParse u.password_hash = none) :
    bcryptVerify p h = false
    ∧ login store payload secret now = .error unauthorizedErr := by
  constructor
  · simp only [bcryptVerify, hmal]
  · simp only [login, hfind]
    rw [if_pos (by simp [bcryptVerify, hmal2])]

/-- C10 counterexample: a present Authorization header with a non-bearer
scheme is NOT rejected with the missing-credential error (it gets 401
"Invalid token" instead), refuting the claim that absence and a malformed
scheme both produce `MissingCredential`. -/
theorem non_bearer_scheme_not_missing_credential :
    get_current_user "dev-secret-key-change-me" 0 ⟨[], 0⟩
      (.schemeCred "Basic" (.malformed "x")) ≠ .error missingCredentialErr := by
  decide

/-- C10 (amended): an absent (or empty) Authorization header produces the 401
"Missing Authorization header" error, while a present header whose scheme is
not the bearer form produces the 401 "Invalid token" error — both are
401-class, but with distinct details. -/
theorem header_scheme_errors (secret : String) (now : Nat) (store : Store)
    (scheme : String) (cred : Credential)
    (hscheme : lower scheme ≠ "bearer") :
    get_current_user secret now store .missing = .error missingCredentialErr
    ∧ get_current_user secret now store (.schemeCred scheme cred)
        = .error invalidCredentialErr := by
  constructor
  · rfl
  · simp only [get_current_user]
    rw [if_pos hscheme]

theorem issue_verify_roundtrip_wit :
    findById sampleStore annTeacher.id = some annTeacher
    ∧ (100 : Nat) < 0 + JWT_EXP_MIN * 60
    ∧ (get_current_user "s" 100 sampleStore
          (.schemeCred "Bearer" (.tok (create_token "s" 0 annTeacher))) = .ok annTeacher
       ∧ annTeacher.id = annTeacher.id) :=
  ⟨by decide, by decide,
   issue_verify_roundtrip "s" 0 100 sampleStore annTeacher annTeacher (by decide) (by decide)⟩

theorem login_approval_gate_wit :
    findByEmail sampleStore "ann@x.com" = some annTeacher
    ∧ bcryptVerify "pw" annTeacher.password_hash = true
    ∧ login sampleStore ⟨"ann@x.com", "pw"⟩ "s" 7 = .error pendingApprovalErr
    ∧ login sampleStore ⟨"adm@x.com", "pw"⟩ "s" 7 = .ok (create_token "s" 7 admAccount) :=
  ⟨by decide, by decide,
   (login_approval_gate sampleStore ⟨"ann@x.com", "pw"⟩ "s" 7 annTeacher
      (by decide) (by decide)).1 (by decide),
   (login_approval_gate sampleStore ⟨"adm@x.com", "pw"⟩ "s" 7 admAccount
      (by decide) (by decide)).2 (by decide)⟩

theorem register_role_dispatch_wit :
    register sampleStore ⟨"N", "new@x.com", "q", .admin⟩ "s" 0 1
      = (sampleStore, .error invalidRequestErr)
    ∧ (∃ a, register sampleStore ⟨"N", "new@x.com", "q", .student⟩ "s" 0 1
          = ({ users := sampleStore.users ++ [a], nextId := sampleStore.nextId + 1 },
             .ok (create_token "s" 0 a))
        ∧ a.approved = true)
    ∧ (∃ a, register sampleStore ⟨"N", "new@x.com", "q", .teacher⟩ "s" 0 1
          = ({ users := sampleStore.users ++ [a], nextId := sampleStore.nextId + 1 },
             .ok (create_token "s" 0 a))
        ∧ a.approved = false) :=
  ⟨(register_role_dispatch sampleStore "s" 0 1 "N" "new@x.com" "q").1,
   (register_role_dispatch sampleStore "s" 0 1 "N" "new@x.com" "q").2.1 (by decide),
   (register_role_dispatch sampleStore "s" 0 1 "N" "new@x.com" "q").2.2 (by decide)⟩

theorem login_enumeration_safe_wit :
    findByEmail sampleStore "ghost@x.com" = none
    ∧ findByEmail sampleStore "ann@x.com" = some annTeacher
    ∧ bcryptVerify "bad" annTeacher.password_hash = false
    ∧ (login sampleStore ⟨"ghost@x.com", "z"⟩ "s" 7 = .error unauthorizedErr
       ∧ login sampleStore ⟨"ann@x.com", "bad"⟩ "s" 7 = .error unauthorizedErr) :=
  ⟨by decide, by decide, by decide,
   login_enumeration_safe sampleStore "s" 7 "ghost@x.com" "ann@x.com" "z" "bad"
     annTeacher (by decide) (by decide) (by decide)⟩

theorem approval_not_consulted_wit :
    findById sampleStore annTeacher.id = some annTeacher
    ∧ annTeacher.approved = false
    ∧ get_current_user "s" 100 sampleStore
        (.schemeCred "Bearer" (.tok (create_token "s" 0 annTeacher))) = .ok annTeacher
    ∧ require_role annTeacher [.teacher, .admin] = .ok ()
    ∧ (∃ c, (create_course sampleCourses sampleCourseBody annTeacher).2 = .ok c) :=
  ⟨by decide, by decide,
   (approval_not_consulted_by_auth "s" 0 100 sampleStore annTeacher annTeacher
      [.teacher, .admin] sampleCourses sampleCourseBody
      (by decide) (by decide) (by decide)).1,
   (approval_not_consulted_by_auth "s" 0 100 sampleStore annTeacher annTeacher
      [.teacher, .admin] sampleCourses sampleCourseBody
      (by decide) (by decide) (by decide)).2.1 (by decide),
   (approval_not_consulted_by_auth "s" 0 100 sampleStore annTeacher annTeacher
      [.teacher, .admin] sampleCourses sampleCourseBody
      (by decide) (by decide) (by decide)).2.2 rfl⟩

theorem register_duplicate_email_wit :
    (RegisterRequest.mk "X" "ann@x.com" "q" .teacher).role ≠ Role.admin
    ∧ findByEmail sampleStore "ann@x.com" = some annTeacher
    ∧ register sampleStore ⟨"X", "ann@x.com", "q", .teacher⟩ "s" 0 1
        = (sampleStore, .error conflictErr) :=
  ⟨by decide, by decide,
   register_duplicate_email sampleStore ⟨"X", "ann@x.com", "q", .teacher⟩ annTeacher
     "s" 0 1 (by decide) (by decide)⟩

theorem access_gate_role_and_ownership_wit :
    findCourseById sampleCourses sampleAssignmentBody.course_id = some sampleCourse
    ∧ annTeacher.role = .teacher
    ∧ admAccount.role = .admin
    ∧ (require_role stuStudent [.teacher, .admin] = .error forbiddenErr
        ↔ stuStudent.role ∉ [Role.teacher, Role.admin])
    ∧ create_assignment sampleCourses emptyAssignments sampleAssignmentBody annTeacher
        = (emptyAssignments, .error notYourCourseErr)
    ∧ (∃ doc asg2,
        create_assignment sampleCourses emptyAssignments sampleAssignmentBody admAccount
          = (asg2, .ok doc)) :=
  ⟨by decide, by decide, by decide,
   (access_gate_role_and_ownership stuStudent [.teacher, .admin] sampleCourses
      emptyAssignments sampleAssignmentBody annTeacher admAccount sampleCourse
      (by decide) (by decide) (by decide)).1,
   (access_gate_role_and_ownership stuStudent [.teacher, .admin] sampleCourses
      emptyAssignments sampleAssignmentBody annTeacher admAccount sampleCourse
      (by decide) (by decide) (by decide)).2.1 (by decide),
   (access_gate_role_and_ownership stuStudent [.teacher, .admin] sampleCourses
      emptyAssignments sampleAssignmentBody annTeacher admAccount sampleCourse
      (by decide) (by decide) (by decide)).2.2⟩

theorem expired_token_rejected_wit :
    0 + JWT_EXP_MIN * 60 < 5000
    ∧ (get_current_user "s" 5000 sampleStore
          (.schemeCred "Bearer" (.tok (create_token "s" 0 annTeacher)))
          = .error expiredCredentialErr
       ∧ expiredCredentialErr ≠ invalidCredentialErr
       ∧ expiredCredentialErr ≠ missingCredentialErr) :=
  ⟨by decide, expired_token_rejected "s" 0 5000 sampleStore annTeacher (by decide)⟩

theorem verify_fails_closed_wit :
    bcryptParse "" = none
    ∧ findByEmail brokenStore "bro@x.com" = some brokenAccount
    ∧ bcryptParse brokenAccount.password_hash = none
    ∧ (bcryptVerify "pw" "" = false
       ∧ login brokenStore ⟨"bro@x.com", "pw"⟩ "s" 7 = .error unauthorizedErr) :=
  ⟨by decide, by decide, by decide,
   verify_fails_closed "pw" "" brokenStore ⟨"bro@x.com", "pw"⟩ brokenAccount "s" 7
     (by decide) (by decide) (by decide)⟩

theorem header_scheme_errors_wit :
    lower "Basic" ≠ "bearer"
    ∧ (get_current_user "s" 0 sampleStore .missing = .error missingCredentialErr
       ∧ get_current_user "s" 0 sampleStore (.schemeCred "Basic" (.malformed "x"))
           = .error invalidCredentialErr) :=
  ⟨by decide, header_scheme_errors "s" 0 sampleStore "Basic" (.malformed "x") (by decide)⟩

end Portal
